import Mathlib

/-!
Shallow embedding of `bpf/lib/time.h` from the cilium repository.

The source defines a constant and two macros over unsigned 64-bit
integers:

  #define NSEC_PER_SEC  (1000ULL * 1000ULL * 1000UL)

  #define bpf_ktime_get_sec() \
    ({ __u64 __x = ktime_get_ns() / NSEC_PER_SEC; __x; })

  #define bpf_sec_to_jiffies(s) \
    ({ __u64 __x = (s) * KERNEL_HZ; __x; })

We model `__u64` values as natural numbers below `U64 = 2^64`, with an
explicit `% U64` wherever C's fixed-width arithmetic can wrap.  The
external clock primitive `ktime_get_ns` is modelled by passing its
returned timestamp as an argument; the build-time constant `KERNEL_HZ`
is likewise passed as an argument.
-/

namespace CiliumTime

/-- The number of values of an unsigned 64-bit integer: `2^64`. -/
def U64 : Nat := 2 ^ 64

/-- `NSEC_PER_SEC`, embedded from the source expression
`1000ULL * 1000ULL * 1000UL`, evaluated in unsigned 64-bit arithmetic
(the `% U64` records the fixed width; the product does not wrap). -/
def NSEC_PER_SEC : Nat := (1000 * 1000 * 1000) % U64

/-- `bpf_ktime_get_sec`, with the value returned by the external clock
primitive `ktime_get_ns()` passed explicitly as `t` (an unsigned 64-bit
nanosecond timestamp).  Unsigned integer floor division; the quotient of
a `__u64` by a positive constant always fits in `__u64`. -/
def bpf_ktime_get_sec (t : Nat) : Nat := t / NSEC_PER_SEC

/-- `bpf_sec_to_jiffies`, with the build-time constant `KERNEL_HZ`
passed explicitly as `hz`.  Unsigned 64-bit multiplication wraps, hence
the `% U64` on the stored `__u64` result. -/
def bpf_sec_to_jiffies (s hz : Nat) : Nat := (s * hz) % U64

/-- Unsigned integer division instrumented with its error branch: `none`
exactly when the divisor is zero, otherwise the floor quotient. -/
def checkedDiv (a b : Nat) : Option Nat :=
  if b = 0 then none else some (a / b)

/-- `bpf_ktime_get_sec` with the embedded floor division replaced by the
instrumented `checkedDiv`, so that reaching a division by zero would be
observable as `none`. -/
def bpf_ktime_get_sec_checked (t : Nat) : Option Nat :=
  checkedDiv t NSEC_PER_SEC

/-- Shared evaluation lemma: the fixed-width product defining
`NSEC_PER_SEC` does not wrap and equals `10^9`. -/
lemma NSEC_PER_SEC_eq : NSEC_PER_SEC = 1000000000 := by decide

end CiliumTime

open CiliumTime

/-- C1: for every unsigned 64-bit nanosecond timestamp `t`,
`bpf_ktime_get_sec` returns exactly `t / 1_000_000_000` by unsigned
integer floor division; in particular `t = 2_500_000_000` yields `2` and
`t = 999_999_999` yields `0`. -/
theorem ktime_get_sec_floor_div (t : Nat) (ht : t < U64) :
    bpf_ktime_get_sec t = t / 1000000000 ∧
    bpf_ktime_get_sec 2500000000 = 2 ∧
    bpf_ktime_get_sec 999999999 = 0 := by
  refine ⟨?_, by decide, by decide⟩
  unfold bpf_ktime_get_sec
  rw [NSEC_PER_SEC_eq]

theorem ktime_get_sec_floor_div_witness :
    bpf_ktime_get_sec 2500000000 = 2500000000 / 1000000000 ∧
    bpf_ktime_get_sec 2500000000 = 2 ∧
    bpf_ktime_get_sec 999999999 = 0 :=
  ktime_get_sec_floor_div 2500000000 (by decide)

/-- C2: for every seconds count `s` and tick frequency `hz > 0` whose
product fits in 64 unsigned bits, `bpf_sec_to_jiffies s hz = s * hz`;
e.g. `bpf_sec_to_jiffies 5 250 = 1250`. -/
theorem sec_to_jiffies_exact (s hz : Nat) (hhz : 0 < hz)
    (hfit : s * hz < U64) :
    bpf_sec_to_jiffies s hz = s * hz := by
  unfold bpf_sec_to_jiffies
  exact Nat.mod_eq_of_lt hfit

theorem sec_to_jiffies_exact_witness :
    bpf_sec_to_jiffies 5 250 = 5 * 250 :=
  sec_to_jiffies_exact 5 250 (by decide) (by decide)

/-- C3: on overflow `bpf_sec_to_jiffies` silently wraps: for every `s`
and `hz` the result is `(s * hz) % 2^64`, with no trap, saturation or
error signal; in particular `bpf_sec_to_jiffies (2^63) 2 = 0`. -/
theorem sec_to_jiffies_wraps :
    (∀ s hz : Nat, bpf_sec_to_jiffies s hz = (s * hz) % 2 ^ 64) ∧
    bpf_sec_to_jiffies (2 ^ 63) 2 = 0 := by
  constructor
  · intro s hz
    rfl
  · unfold bpf_sec_to_jiffies U64
    norm_num

/-- C4: monotonicity of the seconds conversion: for clock readings
`t1 ≤ t2`, the derived seconds satisfy
`bpf_ktime_get_sec t1 ≤ bpf_ktime_get_sec t2`. -/
theorem ktime_get_sec_monotone (t1 t2 : Nat) (h : t1 ≤ t2) :
    bpf_ktime_get_sec t1 ≤ bpf_ktime_get_sec t2 :=
  Nat.div_le_div_right h

theorem ktime_get_sec_monotone_witness :
    bpf_ktime_get_sec 1500000000 ≤ bpf_ktime_get_sec 3200000000 :=
  ktime_get_sec_monotone 1500000000 3200000000 (by decide)

/-- C5: boundary identities: `bpf_sec_to_jiffies 0 hz = 0` for every
`hz`, and `bpf_sec_to_jiffies s 1 = s` for every unsigned 64-bit `s`. -/
theorem sec_to_jiffies_boundary (hz s : Nat) (hs : s < U64) :
    bpf_sec_to_jiffies 0 hz = 0 ∧ bpf_sec_to_jiffies s 1 = s := by
  unfold bpf_sec_to_jiffies
  constructor
  · simp
  · rw [Nat.mul_one]
    exact Nat.mod_eq_of_lt hs

theorem sec_to_jiffies_boundary_witness :
    bpf_sec_to_jiffies 0 250 = 0 ∧ bpf_sec_to_jiffies 7 1 = 7 :=
  sec_to_jiffies_boundary 250 7 (by decide)

/-- C6: the division in `bpf_ktime_get_sec` can never divide by zero:
`NSEC_PER_SEC` is a nonzero constant, so the instrumented division's
error branch is unreachable for every input timestamp and the checked
variant always agrees with `bpf_ktime_get_sec`. -/
theorem ktime_get_sec_no_div_by_zero :
    NSEC_PER_SEC ≠ 0 ∧
    ∀ t : Nat, bpf_ktime_get_sec_checked t = some (bpf_ktime_get_sec t) := by
  constructor
  · decide
  · intro t
    unfold bpf_ktime_get_sec_checked checkedDiv bpf_ktime_get_sec
    rw [if_neg (by decide : ¬ NSEC_PER_SEC = 0)]

/-- C7: the source expression `1000ULL * 1000ULL * 1000UL` defining
`NSEC_PER_SEC` evaluates exactly to `1_000_000_000` in unsigned integer
arithmetic (no wrap occurs). -/
theorem nsec_per_sec_value : NSEC_PER_SEC = 1000000000 := by
  decide

/-- C8: `bpf_sec_to_jiffies` is deterministic and pure: two invocations
on identical inputs return identical outputs, with no dependence on
hidden state (two-run equality of the embedded function). -/
theorem sec_to_jiffies_deterministic (s1 hz1 s2 hz2 : Nat)
    (hs : s1 = s2) (hhz : hz1 = hz2) :
    bpf_sec_to_jiffies s1 hz1 = bpf_sec_to_jiffies s2 hz2 := by
  rw [hs, hhz]

theorem sec_to_jiffies_deterministic_witness :
    bpf_sec_to_jiffies 5 250 = bpf_sec_to_jiffies 5 250 :=
  sec_to_jiffies_deterministic 5 250 5 250 rfl rfl

/-- C9: when the tick frequency is zero, `bpf_sec_to_jiffies` returns a
defined result: for every `s`, `bpf_sec_to_jiffies s 0 = 0`, with no
error, assertion or trap. -/
theorem sec_to_jiffies_hz_zero (s : Nat) :
    bpf_sec_to_jiffies s 0 = 0 := by
  unfold bpf_sec_to_jiffies
  simp

/-- C10: the seconds conversion is a correct floor: for every unsigned
64-bit timestamp `t`, with `s = bpf_ktime_get_sec t`, exact integer
arithmetic gives `s * 1_000_000_000 ≤ t` and
`t - s * 1_000_000_000 < 1_000_000_000`. -/
theorem ktime_get_sec_correct_floor (t : Nat) (ht : t < U64) :
    bpf_ktime_get_sec t * 1000000000 ≤ t ∧
    t - bpf_ktime_get_sec t * 1000000000 < 1000000000 := by
  unfold bpf_ktime_get_sec
  rw [NSEC_PER_SEC_eq]
  have h1 := Nat.div_add_mod t 1000000000
  have h2 := Nat.mod_lt t (show 0 < 1000000000 by norm_num)
  constructor <;> omega

theorem ktime_get_sec_correct_floor_witness :
    bpf_ktime_get_sec 2500000000 * 1000000000 ≤ 2500000000 ∧
    2500000000 - bpf_ktime_get_sec 2500000000 * 1000000000 < 1000000000 :=
  ktime_get_sec_correct_floor 2500000000 (by decide)
